import Mathlib

/-!
Verification development for the Homa transport core.

The Receiver operations are shallowly embedded from src/Receiver.cc.  The
Message buffer, the OpContext update rules and the Transport sendRequest id
arithmetic live in files that are not part of the tree (Message.h,
OpContext.h, Transport.cc); those are modelled from the specification and
from the repository's unit tests, and are marked as such in their doc
comments.  C++ heap pointers are modelled as natural numbers indexing
association lists; assertion failures and null dereferences are modelled by
returning none.
-/

namespace Homa

/-- Message identifier: the triple (transport id, op sequence, tag), as in
Protocol::MessageId. -/
structure MessageId where
  transportId : Nat
  sequence : Nat
  tag : Nat
  deriving DecidableEq, Repr

/-- Lookup of the first entry with the given key in an association list,
modelling a map find. -/
def alookup {κ α : Type} [DecidableEq κ] : List (κ × α) → κ → Option α
  | [], _ => none
  | (k', v) :: rest, k => if k' = k then some v else alookup rest k

/-- Replace the value stored at the first occurrence of the key, modelling a
write through a pointer into the container. -/
def aupdate {κ α : Type} [DecidableEq κ] : List (κ × α) → κ → α → List (κ × α)
  | [], _, _ => []
  | (k', v') :: rest, k, v =>
      if k' = k then (k, v) :: rest else (k', v') :: aupdate rest k v

/-- Remove every entry with the given key, modelling a map erase (keys are
unique in the C++ maps, so at most one entry is removed there). -/
def aerase {κ α : Type} [DecidableEq κ] (l : List (κ × α)) (k : κ) : List (κ × α) :=
  l.filter (fun e => decide (e.1 ≠ k))

/-- Insert a key-value pair only when the key is absent, modelling
std map insert (which keeps the old entry on a key collision). -/
def ainsert {κ α : Type} [DecidableEq κ] (l : List (κ × α)) (k : κ) (v : α) :
    List (κ × α) :=
  match alookup l k with
  | some _ => l
  | none => (k, v) :: l

/-- Modelled from the spec: the Message buffer (Message.h is not in the
tree).  Spec section 4.1 and section 3: a fixed per-packet data length, a
declared raw length in bytes, and an occupancy record over packet slots in
which a slot is set at most once.  The slots are kept as the list of
occupied indices. -/
structure Message where
  PACKET_DATA_LENGTH : Nat
  messageLength : Nat
  occupied : List Nat
  deriving DecidableEq, Repr

/-- Modelled from the spec: constructing a Message buffer sizes the packet
data region from the driver's max payload minus the data header size and
records the declared total length. -/
def Message.construct (maxPayloadSize dataHeaderLength messageLength : Nat) :
    Message :=
  { PACKET_DATA_LENGTH := maxPayloadSize - dataHeaderLength
    messageLength := messageLength
    occupied := [] }

/-- Declared total raw length of the message in bytes. -/
def Message.rawLength (m : Message) : Nat := m.messageLength

/-- Number of occupied packet slots. -/
def Message.getNumPackets (m : Message) : Nat := m.occupied.length

/-- Modelled from the spec (4.1): setPacket returns false when the slot is
already occupied, otherwise records the packet and returns true. -/
def Message.setPacket (m : Message) (index : Nat) : Message × Bool :=
  if index ∈ m.occupied then (m, false)
  else ({ m with occupied := index :: m.occupied }, true)

/-- Modelled from the spec: sizeof(Protocol::Packet::DataHeader).  The tests
fix getMaxPayloadSize() = 1028 together with PACKET_DATA_LENGTH = 1000. -/
def dataHeaderLength : Nat := 28

/-- An InboundMessage as held in the Receiver's message pool: its id, the
lazily constructed Message buffer, the cached source address (kept as its
string form) and the completion flag. -/
structure InboundMessage where
  id : MessageId
  message : Option Message
  source : Option String
  fullMessageReceived : Bool
  deriving DecidableEq, Repr

/-- Wire data header fields used by the Receiver: message id, packet slot
index, and the declared total message length. -/
structure DataHeader where
  messageId : MessageId
  index : Nat
  totalLength : Nat
  deriving DecidableEq, Repr

/-- An incoming DATA packet: its header and the source address it arrived
from (as the address's string form). -/
structure Packet where
  header : DataHeader
  address : String
  deriving DecidableEq, Repr

/-- The driver parameters the Receiver consumes. -/
structure Driver where
  maxPayloadSize : Nat
  deriving DecidableEq, Repr

/-- Externally visible side effects of handleDataPacket: a packet released
back to the driver, or the Scheduler informed of a received packet. -/
inductive Event where
  | releasePacket : Event
  | packetReceived (id : MessageId) (source : String)
      (messageLength totalReceivedBytes : Nat) : Event
  deriving DecidableEq, Repr

/-- The Receiver state from Receiver.h: the registered-ops map, the per-op
inMessage pointers (op->inMessage fields of the OpContexts the Receiver
points at), the unregistered-messages map, the received-messages FIFO and
the message pool.  Pool objects are addressed by ascending naturals;
nextPtr is the next fresh address. -/
structure Receiver where
  registeredOps : List (MessageId × Nat)
  opInMessage : List (Nat × Nat)
  unregisteredMessages : List (MessageId × Nat)
  receivedMessages : List Nat
  pool : List (Nat × InboundMessage)
  nextPtr : Nat
  deriving DecidableEq, Repr

/-- Lookup phase of handleDataPacket (Receiver.cc lines 62-88), performed
under the Receiver mutex: find the id among registered ops, then among
unregistered messages, otherwise construct a new pool message, insert it
into the unregistered map and push it onto the received FIFO.  Returns the
possibly extended state, the registered op if any, and the message pointer;
none models a failure of the assertion op->inMessage != nullptr. -/
def Receiver.findMessage (r : Receiver) (id : MessageId) :
    Option (Receiver × Option Nat × Nat) :=
  match alookup r.registeredOps id with
  | some op =>
      match alookup r.opInMessage op with
      | some p => some (r, some op, p)
      | none => none
  | none =>
      match alookup r.unregisteredMessages id with
      | some p => some (r, none, p)
      | none =>
          some ({ r with
                    pool := (r.nextPtr,
                      { id := id, message := none, source := none
                        fullMessageReceived := false }) :: r.pool
                    nextPtr := r.nextPtr + 1
                    unregisteredMessages := (id, r.nextPtr) :: r.unregisteredMessages
                    receivedMessages := r.receivedMessages ++ [r.nextPtr] },
                none, r.nextPtr)

/-- Lazy construction of the message buffer on first packet (Receiver.cc
lines 92-99): build the Message from the driver and the header's
totalLength and cache the source address resolved through the driver. -/
def lazyInit (drv : Driver) (totalLength : Nat) (addr : String)
    (msg : InboundMessage) : InboundMessage :=
  match msg.message with
  | none =>
      { msg with
          message := some (Message.construct drv.maxPayloadSize dataHeaderLength
            totalLength)
          source := some addr }
  | some _ => msg

/-- Packet accumulation phase of handleDataPacket (Receiver.cc lines
101-137), on the already lazily initialized message: drop the packet when
the message is complete, check the source and length assertions, call
setPacket and either drop the duplicate or inform the Scheduler and test
for completion.  none models a failed assertion (including a null source
dereference). -/
def Receiver.processMessagePacket (r : Receiver) (op : Option Nat) (p : Nat)
    (pkt : Packet) (msg : InboundMessage) :
    Option (Receiver × List Event × Option Nat) :=
  if msg.fullMessageReceived then
    some ({ r with pool := aupdate r.pool p msg }, [Event.releasePacket], none)
  else
    match msg.message, msg.source with
    | some buf, some src =>
        if src = pkt.address then
          if buf.rawLength = pkt.header.totalLength then
            match buf.setPacket pkt.header.index with
            | (buf2, true) =>
                some ({ r with pool := (aupdate r.pool p
                          { msg with
                              message := some buf2
                              fullMessageReceived :=
                                decide (buf2.rawLength ≤
                                  buf2.PACKET_DATA_LENGTH * buf2.getNumPackets) }) },
                      [Event.packetReceived pkt.header.messageId src buf2.rawLength
                        (buf2.PACKET_DATA_LENGTH * buf2.getNumPackets)],
                      if buf2.rawLength ≤ buf2.PACKET_DATA_LENGTH * buf2.getNumPackets
                      then op else none)
            | (_, false) =>
                some ({ r with pool := aupdate r.pool p msg },
                      [Event.releasePacket], none)
          else none
        else none
    | _, _ => none

/-- Process an incoming DATA packet (Receiver.cc lines 54-138).  Returns the
updated state, the driver and Scheduler side effects, and the OpContext
pointer the C++ function returns (none for nullptr); an outer none models
an assertion failure. -/
def Receiver.handleDataPacket (r : Receiver) (drv : Driver) (pkt : Packet) :
    Option (Receiver × List Event × Option Nat) :=
  match r.findMessage pkt.header.messageId with
  | none => none
  | some (r1, op, p) =>
      match alookup r1.pool p with
      | none => none
      | some msg0 =>
          if msg0.id = pkt.header.messageId then
            r1.processMessagePacket op p pkt
              (lazyInit drv pkt.header.totalLength pkt.address msg0)
          else none

/-- Pop the next unregistered inbound message from the FIFO (Receiver.cc
lines 156-166). -/
def Receiver.receiveMessage (r : Receiver) : Receiver × Option Nat :=
  match r.receivedMessages with
  | [] => (r, none)
  | p :: rest => ({ r with receivedMessages := rest }, some p)

/-- Drop an unregistered inbound message (Receiver.cc lines 175-182): erase
its id from the unregistered map and destroy the pool object. -/
def Receiver.dropMessage (r : Receiver) (p : Nat) : Receiver :=
  match alookup r.pool p with
  | none => r
  | some msg =>
      { r with
          unregisteredMessages := aerase r.unregisteredMessages msg.id
          pool := aerase r.pool p }

/-- Register an op for an expected message id (Receiver.cc lines 193-211):
adopt the existing unregistered message when there is one (erasing it from
the unregistered map), otherwise construct a fresh one; set op->inMessage
and insert into the registered-ops map. -/
def Receiver.registerOp (r : Receiver) (id : MessageId) (op : Nat) : Receiver :=
  match alookup r.unregisteredMessages id with
  | some p =>
      { r with
          unregisteredMessages := aerase r.unregisteredMessages id
          opInMessage := (op, p) :: aerase r.opInMessage op
          registeredOps := ainsert r.registeredOps id op }
  | none =>
      { r with
          pool := (r.nextPtr,
            { id := id, message := none, source := none
              fullMessageReceived := false }) :: r.pool
          nextPtr := r.nextPtr + 1
          opInMessage := (op, r.nextPtr) :: aerase r.opInMessage op
          registeredOps := ainsert r.registeredOps id op }

/-- Pool pointer of the InboundMessage currently associated with an id,
looked up the way handleDataPacket does: registered ops first, then the
unregistered-messages map. -/
def Receiver.messageFor (r : Receiver) (id : MessageId) : Option Nat :=
  match alookup r.registeredOps id with
  | some op => alookup r.opInMessage op
  | none => alookup r.unregisteredMessages id

/-- Whether the message currently associated with an id is fully received. -/
def Receiver.isFull (r : Receiver) (id : MessageId) : Bool :=
  match r.messageFor id with
  | none => false
  | some p =>
      match alookup r.pool p with
      | none => false
      | some msg => msg.fullMessageReceived

/-- Looking up an updated key finds the written value, provided the key was
present. -/
theorem alookup_aupdate_self {κ α : Type} [DecidableEq κ] (l : List (κ × α)) (k : κ)
    (v : α) (h : (alookup l k).isSome) : alookup (aupdate l k v) k = some v := by
  induction l with
  | nil => simp [alookup] at h
  | cons e rest ih =>
      obtain ⟨k', v'⟩ := e
      by_cases hk : k' = k
      · subst hk; simp [alookup, aupdate]
      · simp [alookup, aupdate, hk] at h ⊢
        exact ih h

/-- Writing back the value already stored at a key leaves the list unchanged. -/
theorem aupdate_self {κ α : Type} [DecidableEq κ] (l : List (κ × α)) (k : κ) (v : α)
    (h : alookup l k = some v) : aupdate l k v = l := by
  induction l with
  | nil => rfl
  | cons e rest ih =>
      obtain ⟨k', v'⟩ := e
      by_cases hk : k' = k
      · subst hk
        simp [alookup] at h
        simp [aupdate, h]
      · simp [alookup, hk] at h
        simp [aupdate, hk, ih h]

/-- Updating a value does not change the keys of the list. -/
theorem aupdate_keys {κ α : Type} [DecidableEq κ] (l : List (κ × α)) (k : κ) (v : α) :
    (aupdate l k v).map Prod.fst = l.map Prod.fst := by
  induction l with
  | nil => rfl
  | cons e rest ih =>
      obtain ⟨k', v'⟩ := e
      by_cases hk : k' = k
      · subst hk; simp [aupdate]
      · simp [aupdate, hk, ih]

/-- An erased key is no longer found. -/
theorem alookup_aerase_self {κ α : Type} [DecidableEq κ] (l : List (κ × α)) (k : κ) :
    alookup (aerase l k) k = none := by
  induction l with
  | nil => rfl
  | cons e rest ih =>
      obtain ⟨k', v'⟩ := e
      by_cases hk : k' = k
      · subst hk; simpa [aerase] using ih
      · simpa [aerase, alookup, hk] using ih

/-- Lazy initialization does not touch the completion flag. -/
theorem lazyInit_fullMessageReceived (drv : Driver) (tl : Nat) (a : String)
    (msg : InboundMessage) :
    (lazyInit drv tl a msg).fullMessageReceived = msg.fullMessageReceived := by
  cases h : msg.message <;> simp [lazyInit, h]

/-- Lazy initialization is the identity once the buffer exists. -/
theorem lazyInit_of_some (drv : Driver) (tl : Nat) (a : String)
    (msg : InboundMessage) (buf : Message) (h : msg.message = some buf) :
    lazyInit drv tl a msg = msg := by
  simp [lazyInit, h]

/-- Characterization of the accumulation phase: it only rewrites the pool
entry of the handled message, leaving every map, the FIFO and the pool keys
unchanged, and it returns the op pointer exactly when the message goes from
not fully received to fully received. -/
theorem processMessagePacket_spec (r : Receiver) (op : Option Nat) (p : Nat)
    (pkt : Packet) (msg : InboundMessage) (r' : Receiver) (evs : List Event)
    (ret : Option Nat) (hpl : (alookup r.pool p).isSome)
    (h : Receiver.processMessagePacket r op p pkt msg = some (r', evs, ret)) :
    r'.registeredOps = r.registeredOps ∧ r'.opInMessage = r.opInMessage ∧
    r'.unregisteredMessages = r.unregisteredMessages ∧
    r'.receivedMessages = r.receivedMessages ∧ r'.nextPtr = r.nextPtr ∧
    r'.pool.map Prod.fst = r.pool.map Prod.fst ∧
    ∃ msg2, alookup r'.pool p = some msg2 ∧
      ret = if msg.fullMessageReceived = false ∧ msg2.fullMessageReceived = true
            then op else none := by
  unfold Receiver.processMessagePacket at h
  split at h
  case isTrue hfull =>
    simp only [Option.some.injEq, Prod.mk.injEq] at h
    obtain ⟨rfl, rfl, rfl⟩ := h
    refine ⟨rfl, rfl, rfl, rfl, rfl, aupdate_keys _ _ _, msg,
      alookup_aupdate_self _ _ _ hpl, ?_⟩
    simp [hfull]
  case isFalse hfull =>
    split at h
    case h_1 buf src hbuf hsrc =>
      split at h
      case isTrue haddr =>
        split at h
        case isTrue hlen =>
          split at h
          case h_1 buf2 hsp =>
            simp only [Option.some.injEq, Prod.mk.injEq] at h
            obtain ⟨rfl, rfl, rfl⟩ := h
            refine ⟨rfl, rfl, rfl, rfl, rfl, aupdate_keys _ _ _, _,
              alookup_aupdate_self _ _ _ hpl, ?_⟩
            simp only [Bool.not_eq_true] at hfull
            simp [hfull, decide_eq_true_eq]
          case h_2 buf2 hsp =>
            simp only [Option.some.injEq, Prod.mk.injEq] at h
            obtain ⟨rfl, rfl, rfl⟩ := h
            refine ⟨rfl, rfl, rfl, rfl, rfl, aupdate_keys _ _ _, msg,
              alookup_aupdate_self _ _ _ hpl, ?_⟩
            simp only [Bool.not_eq_true] at hfull
            simp [hfull]
        case isFalse hlen => exact absurd h (by simp)
      case isFalse haddr => exact absurd h (by simp)
    case h_2 hother => exact absurd h (by simp)

/-- Lookup phase result when the id is registered to an op. -/
theorem findMessage_registered (r : Receiver) (id : MessageId) (o p : Nat)
    (h1 : alookup r.registeredOps id = some o)
    (h2 : alookup r.opInMessage o = some p) :
    r.findMessage id = some (r, some o, p) := by
  simp [Receiver.findMessage, h1, h2]

/-- Lookup phase result when the id has an existing unregistered message. -/
theorem findMessage_unregistered (r : Receiver) (id : MessageId) (p : Nat)
    (h1 : alookup r.registeredOps id = none)
    (h2 : alookup r.unregisteredMessages id = some p) :
    r.findMessage id = some (r, none, p) := by
  simp [Receiver.findMessage, h1, h2]

/-- Lookup phase result for a brand new id: a fresh message is pooled,
entered into the unregistered map and enqueued on the FIFO. -/
theorem findMessage_new (r : Receiver) (id : MessageId)
    (h1 : alookup r.registeredOps id = none)
    (h2 : alookup r.unregisteredMessages id = none) :
    r.findMessage id = some ({ r with
        pool := (r.nextPtr,
          { id := id, message := none, source := none
            fullMessageReceived := false }) :: r.pool
        nextPtr := r.nextPtr + 1
        unregisteredMessages := (id, r.nextPtr) :: r.unregisteredMessages
        receivedMessages := r.receivedMessages ++ [r.nextPtr] },
      none, r.nextPtr) := by
  simp [Receiver.findMessage, h1, h2]

/-- C1: handleDataPacket returns a non-null OpContext pointer if and only if
this packet's processing made the message for the packet's id go from not
fully received to fully received and the id is in the registered-ops map;
in that case it returns the registered op, and in every other case it
returns nullptr. -/
theorem handleDataPacket_op_iff (r : Receiver) (drv : Driver) (pkt : Packet)
    (r' : Receiver) (evs : List Event) (ret : Option Nat)
    (h : r.handleDataPacket drv pkt = some (r', evs, ret)) :
    ret = if r.isFull pkt.header.messageId = false ∧
             r'.isFull pkt.header.messageId = true
          then alookup r.registeredOps pkt.header.messageId
          else none := by
  unfold Receiver.handleDataPacket at h
  cases hreg : alookup r.registeredOps pkt.header.messageId with
  | some o =>
      cases hopm : alookup r.opInMessage o with
      | none => simp [Receiver.findMessage, hreg, hopm] at h
      | some p =>
          rw [findMessage_registered r _ o p hreg hopm] at h
          simp only [] at h
          cases hpool : alookup r.pool p with
          | none => simp [hpool] at h
          | some msg0 =>
              rw [hpool] at h
              simp only [] at h
              by_cases hid : msg0.id = pkt.header.messageId
              · rw [if_pos hid] at h
                obtain ⟨hR, hO, hU, hF, hN, hK, msg2, hm2, hret⟩ :=
                  processMessagePacket_spec _ _ _ _ _ _ _ _ (by simp [hpool]) h
                rw [hret, lazyInit_fullMessageReceived]
                simp [Receiver.isFull, Receiver.messageFor, hreg, hopm, hpool,
                  hR, hO, hm2]
              · rw [if_neg hid] at h
                exact absurd h (by simp)
  | none =>
      cases hunreg : alookup r.unregisteredMessages pkt.header.messageId with
      | some p =>
          rw [findMessage_unregistered r _ p hreg hunreg] at h
          simp only [] at h
          cases hpool : alookup r.pool p with
          | none => simp [hpool] at h
          | some msg0 =>
              rw [hpool] at h
              simp only [] at h
              by_cases hid : msg0.id = pkt.header.messageId
              · rw [if_pos hid] at h
                obtain ⟨hR, hO, hU, hF, hN, hK, msg2, hm2, hret⟩ :=
                  processMessagePacket_spec _ _ _ _ _ _ _ _ (by simp [hpool]) h
                simp [ite_self] at hret
                simp [hret, hreg, ite_self]
              · rw [if_neg hid] at h
                exact absurd h (by simp)
      | none =>
          rw [findMessage_new r _ hreg hunreg] at h
          simp only [alookup, if_pos] at h
          obtain ⟨hR, hO, hU, hF, hN, hK, msg2, hm2, hret⟩ :=
            processMessagePacket_spec _ _ _ _ _ _ _ _ (by simp [alookup]) h
          simp [ite_self] at hret
          simp [hret, hreg, ite_self]

/-- The lookup phase agrees with messageFor: when an id already has an
associated message, findMessage returns it unchanged together with the
registered-ops entry for the id. -/
theorem findMessage_of_messageFor (r : Receiver) (id : MessageId) (p : Nat)
    (hm : r.messageFor id = some p) :
    r.findMessage id = some (r, alookup r.registeredOps id, p) := by
  unfold Receiver.messageFor at hm
  cases hreg : alookup r.registeredOps id with
  | some o =>
      rw [hreg] at hm
      rw [findMessage_registered r id o p hreg hm]
  | none =>
      rw [hreg] at hm
      rw [findMessage_unregistered r id p hreg hm]

/-- C4: once a message is fully received it stays that way; any further DATA
packet for that id is released back to the driver, nullptr is returned, the
Scheduler is not informed, and the whole Receiver state is unchanged. -/
theorem fullMessageReceived_sticky (r : Receiver) (drv : Driver) (pkt : Packet)
    (p : Nat) (msg : InboundMessage) (buf : Message)
    (hm : r.messageFor pkt.header.messageId = some p)
    (hp : alookup r.pool p = some msg)
    (hid : msg.id = pkt.header.messageId)
    (hfull : msg.fullMessageReceived = true)
    (hbuf : msg.message = some buf) :
    r.handleDataPacket drv pkt = some (r, [Event.releasePacket], none) := by
  unfold Receiver.handleDataPacket
  rw [findMessage_of_messageFor r _ p hm]
  simp only []
  rw [hp]
  simp only []
  rw [if_pos hid, lazyInit_of_some drv _ _ msg buf hbuf]
  unfold Receiver.processMessagePacket
  rw [if_pos hfull, aupdate_self _ _ _ hp]

/-- C5: a DATA packet whose slot is already occupied (setPacket returns
false) is released back to the driver, the Scheduler is not notified,
nullptr is returned, and the message (occupancy, packet count, completion
flag) and the rest of the Receiver state are unchanged. -/
theorem duplicate_packet_dropped (r : Receiver) (drv : Driver) (pkt : Packet)
    (p : Nat) (msg : InboundMessage) (buf : Message) (src : String)
    (hm : r.messageFor pkt.header.messageId = some p)
    (hp : alookup r.pool p = some msg)
    (hid : msg.id = pkt.header.messageId)
    (hfull : msg.fullMessageReceived = false)
    (hbuf : msg.message = some buf)
    (hsrc : msg.source = some src)
    (haddr : src = pkt.address)
    (hlen : buf.messageLength = pkt.header.totalLength)
    (hdup : pkt.header.index ∈ buf.occupied) :
    r.handleDataPacket drv pkt = some (r, [Event.releasePacket], none) := by
  unfold Receiver.handleDataPacket
  rw [findMessage_of_messageFor r _ p hm]
  simp only []
  rw [hp]
  simp only []
  rw [if_pos hid, lazyInit_of_some drv _ _ msg buf hbuf]
  unfold Receiver.processMessagePacket
  simp [hfull, hbuf, hsrc, haddr, hlen, Message.setPacket, Message.rawLength,
    hdup, aupdate_self _ _ _ hp]

/-- C6: a DATA packet that is successfully added informs the Scheduler
exactly once with (id, cached source, raw length, PACKET_DATA_LENGTH *
getNumPackets) and sets fullMessageReceived exactly when that over-counted
byte total reaches rawLength; the registered op is returned exactly on
completion. -/
theorem packet_added_informs_scheduler (r : Receiver) (drv : Driver)
    (pkt : Packet) (p : Nat) (msg : InboundMessage) (buf : Message) (src : String)
    (hm : r.messageFor pkt.header.messageId = some p)
    (hp : alookup r.pool p = some msg)
    (hid : msg.id = pkt.header.messageId)
    (hfull : msg.fullMessageReceived = false)
    (hbuf : msg.message = some buf)
    (hsrc : msg.source = some src)
    (haddr : src = pkt.address)
    (hlen : buf.messageLength = pkt.header.totalLength)
    (hnew : pkt.header.index ∉ buf.occupied) :
    r.handleDataPacket drv pkt =
      some ({ r with pool := (aupdate r.pool p
                { msg with
                    message := some { buf with
                      occupied := pkt.header.index :: buf.occupied }
                    fullMessageReceived :=
                      decide (buf.messageLength ≤
                        buf.PACKET_DATA_LENGTH * (buf.occupied.length + 1)) }) },
            [Event.packetReceived pkt.header.messageId src buf.messageLength
              (buf.PACKET_DATA_LENGTH * (buf.occupied.length + 1))],
            if buf.messageLength ≤ buf.PACKET_DATA_LENGTH * (buf.occupied.length + 1)
            then alookup r.registeredOps pkt.header.messageId else none) := by
  unfold Receiver.handleDataPacket
  rw [findMessage_of_messageFor r _ p hm]
  simp only []
  rw [hp]
  simp only []
  rw [if_pos hid, lazyInit_of_some drv _ _ msg buf hbuf]
  unfold Receiver.processMessagePacket
  simp [hfull, hbuf, hsrc, haddr, hlen, Message.setPacket, Message.rawLength,
    Message.getNumPackets, hnew]

/-- C9: a message is constructed in the pool and pushed onto the received
FIFO only at the moment a DATA packet arrives for a brand new unregistered
id; when the id is already registered to an op or already has an
unregistered message, handleDataPacket neither enqueues anything nor
constructs another pool object. -/
theorem message_enqueued_once (r : Receiver) (drv : Driver) (pkt : Packet)
    (r' : Receiver) (evs : List Event) (ret : Option Nat)
    (h : r.handleDataPacket drv pkt = some (r', evs, ret)) :
    ((alookup r.registeredOps pkt.header.messageId).isSome ∨
       (alookup r.unregisteredMessages pkt.header.messageId).isSome →
      r'.receivedMessages = r.receivedMessages ∧
      r'.pool.map Prod.fst = r.pool.map Prod.fst) ∧
    (alookup r.registeredOps pkt.header.messageId = none ∧
       alookup r.unregisteredMessages pkt.header.messageId = none →
      r'.receivedMessages = r.receivedMessages ++ [r.nextPtr] ∧
      r'.pool.map Prod.fst = r.nextPtr :: r.pool.map Prod.fst) := by
  unfold Receiver.handleDataPacket at h
  cases hreg : alookup r.registeredOps pkt.header.messageId with
  | some o =>
      cases hopm : alookup r.opInMessage o with
      | none => simp [Receiver.findMessage, hreg, hopm] at h
      | some p =>
          rw [findMessage_registered r _ o p hreg hopm] at h
          simp only [] at h
          cases hpool : alookup r.pool p with
          | none => simp [hpool] at h
          | some msg0 =>
              rw [hpool] at h
              simp only [] at h
              by_cases hid : msg0.id = pkt.header.messageId
              · rw [if_pos hid] at h
                obtain ⟨hR, hO, hU, hF, hN, hK, msg2, hm2, hret⟩ :=
                  processMessagePacket_spec _ _ _ _ _ _ _ _ (by simp [hpool]) h
                exact ⟨fun _ => ⟨hF, hK⟩, fun hc => by simp at hc⟩
              · rw [if_neg hid] at h
                exact absurd h (by simp)
  | none =>
      cases hunreg : alookup r.unregisteredMessages pkt.header.messageId with
      | some p =>
          rw [findMessage_unregistered r _ p hreg hunreg] at h
          simp only [] at h
          cases hpool : alookup r.pool p with
          | none => simp [hpool] at h
          | some msg0 =>
              rw [hpool] at h
              simp only [] at h
              by_cases hid : msg0.id = pkt.header.messageId
              · rw [if_pos hid] at h
                obtain ⟨hR, hO, hU, hF, hN, hK, msg2, hm2, hret⟩ :=
                  processMessagePacket_spec _ _ _ _ _ _ _ _ (by simp [hpool]) h
                exact ⟨fun _ => ⟨hF, hK⟩, fun hc => by simp at hc⟩
              · rw [if_neg hid] at h
                exact absurd h (by simp)
      | none =>
          rw [findMessage_new r _ hreg hunreg] at h
          simp only [alookup, if_pos] at h
          obtain ⟨hR, hO, hU, hF, hN, hK, msg2, hm2, hret⟩ :=
            processMessagePacket_spec _ _ _ _ _ _ _ _ (by simp [alookup]) h
          refine ⟨fun hc => by simp at hc, fun _ => ⟨?_, ?_⟩⟩
          · rw [hF]
          · rw [hK]; simp

/-- The accumulation phase cannot hit an assertion when the message is
already complete or its buffer and cached source agree with the packet. -/
theorem processMessagePacket_isSome (r : Receiver) (op : Option Nat) (p : Nat)
    (pkt : Packet) (msg : InboundMessage)
    (hc : msg.fullMessageReceived = true ∨
      ∃ buf src, msg.message = some buf ∧ msg.source = some src ∧
        src = pkt.address ∧ buf.rawLength = pkt.header.totalLength) :
    (Receiver.processMessagePacket r op p pkt msg).isSome = true := by
  unfold Receiver.processMessagePacket
  by_cases hfull : msg.fullMessageReceived = true
  · rw [if_pos hfull]; rfl
  · rw [if_neg hfull]
    rcases hc with hc | ⟨buf, src, hbuf, hsrc, haddr, hlen⟩
    · exact absurd hc hfull
    · rw [hbuf, hsrc]
      simp only []
      rw [if_pos haddr, if_pos hlen]
      rcases hsp : buf.setPacket pkt.header.index with ⟨buf2, fl⟩
      cases fl <;> simp [hsp]

/-- C10: when every DATA packet of a message agrees with the message's
first packet — the registered op has an inbound message, the pooled message
carries the packet's id, and either the buffer is not yet constructed or
the cached source address and raw length match the arriving packet —
handleDataPacket cannot fail an assertion: it always returns a result. -/
theorem handleDataPacket_asserts_hold (r : Receiver) (drv : Driver) (pkt : Packet)
    (hro : ∀ o, alookup r.registeredOps pkt.header.messageId = some o →
      (alookup r.opInMessage o).isSome)
    (hmsg : ∀ p, r.messageFor pkt.header.messageId = some p →
      ∃ msg, alookup r.pool p = some msg ∧ msg.id = pkt.header.messageId ∧
        (msg.fullMessageReceived = true ∨
         (msg.message = none ∧ msg.source = none) ∨
         ∃ buf src, msg.message = some buf ∧ msg.source = some src ∧
           src = pkt.address ∧ buf.rawLength = pkt.header.totalLength)) :
    (r.handleDataPacket drv pkt).isSome = true := by
  unfold Receiver.handleDataPacket
  cases hreg : alookup r.registeredOps pkt.header.messageId with
  | some o =>
      obtain ⟨p, hopm⟩ := Option.isSome_iff_exists.mp (hro o hreg)
      rw [findMessage_registered r _ o p hreg hopm]
      simp only []
      obtain ⟨msg, hp, hid, hc⟩ := hmsg p (by
        simp [Receiver.messageFor, hreg, hopm])
      rw [hp]
      simp only []
      rw [if_pos hid]
      apply processMessagePacket_isSome
      rcases hc with hfull | ⟨hn1, hn2⟩ | ⟨buf, src, hbuf, hsrc, haddr, hlen⟩
      · left; rw [lazyInit_fullMessageReceived]; exact hfull
      · right
        exact ⟨Message.construct drv.maxPayloadSize dataHeaderLength
            pkt.header.totalLength, pkt.address,
          by simp [lazyInit, hn1], by simp [lazyInit, hn1], rfl, rfl⟩
      · right
        exact ⟨buf, src,
          by rw [lazyInit_of_some drv _ _ msg buf hbuf]; exact hbuf,
          by rw [lazyInit_of_some drv _ _ msg buf hbuf]; exact hsrc, haddr, hlen⟩
  | none =>
      cases hunreg : alookup r.unregisteredMessages pkt.header.messageId with
      | some p =>
          rw [findMessage_unregistered r _ p hreg hunreg]
          simp only []
          obtain ⟨msg, hp, hid, hc⟩ := hmsg p (by
            simp [Receiver.messageFor, hreg, hunreg])
          rw [hp]
          simp only []
          rw [if_pos hid]
          apply processMessagePacket_isSome
          rcases hc with hfull | ⟨hn1, hn2⟩ | ⟨buf, src, hbuf, hsrc, haddr, hlen⟩
          · left; rw [lazyInit_fullMessageReceived]; exact hfull
          · right
            exact ⟨Message.construct drv.maxPayloadSize dataHeaderLength
                pkt.header.totalLength, pkt.address,
              by simp [lazyInit, hn1], by simp [lazyInit, hn1], rfl, rfl⟩
          · right
            exact ⟨buf, src,
              by rw [lazyInit_of_some drv _ _ msg buf hbuf]; exact hbuf,
              by rw [lazyInit_of_some drv _ _ msg buf hbuf]; exact hsrc, haddr, hlen⟩
      | none =>
          rw [findMessage_new r _ hreg hunreg]
          simp only [alookup, if_pos]
          apply processMessagePacket_isSome
          right
          exact ⟨Message.construct drv.maxPayloadSize dataHeaderLength
              pkt.header.totalLength, pkt.address,
            by simp [lazyInit], by simp [lazyInit], rfl, rfl⟩

/-- Receiver holding one unregistered message (pool address 0) that is
still sitting on the received-messages FIFO, as after one DATA packet for a
brand new id. -/
def rFifo : Receiver :=
  { registeredOps := []
    opInMessage := []
    unregisteredMessages := [(⟨42, 32, 22⟩, 0)]
    receivedMessages := [0]
    pool := [(0, { id := ⟨42, 32, 22⟩, message := none, source := none
                   fullMessageReceived := false })]
    nextPtr := 1 }

/-- C2 counterexample: an unregistered InboundMessage for the id exists and
is on the received-messages FIFO; after registerOp the FIFO still contains
that message, contradicting the claim that the FIFO no longer contains it. -/
theorem registerOp_fifo_counterexample :
    alookup rFifo.unregisteredMessages ⟨42, 32, 22⟩ = some 0 ∧
    0 ∈ rFifo.receivedMessages ∧
    0 ∈ (rFifo.registerOp ⟨42, 32, 22⟩ 7).receivedMessages := by decide

/-- C2 (amended): when an unregistered InboundMessage exists for the id,
registerOp makes the op's inMessage that same message and removes the id
from the unregistered-messages map; the received-messages FIFO is left
unchanged (the message leaves the FIFO only through receiveMessage). -/
theorem registerOp_transfers_message (r : Receiver) (id : MessageId) (op p : Nat)
    (h : alookup r.unregisteredMessages id = some p) :
    alookup (r.registerOp id op).opInMessage op = some p ∧
    alookup (r.registerOp id op).unregisteredMessages id = none ∧
    (r.registerOp id op).receivedMessages = r.receivedMessages := by
  unfold Receiver.registerOp
  rw [h]
  refine ⟨by simp [alookup], ?_, rfl⟩
  simpa using alookup_aerase_self r.unregisteredMessages id

/-- C2 witness: the amended theorem applied to the concrete receiver. -/
theorem registerOp_transfers_message_witness :
    alookup rFifo.unregisteredMessages ⟨42, 32, 22⟩ = some 0 ∧
    (alookup (rFifo.registerOp ⟨42, 32, 22⟩ 7).opInMessage 7 = some 0 ∧
     alookup (rFifo.registerOp ⟨42, 32, 22⟩ 7).unregisteredMessages ⟨42, 32, 22⟩ =
       none ∧
     (rFifo.registerOp ⟨42, 32, 22⟩ 7).receivedMessages = rFifo.receivedMessages) :=
  ⟨by decide, registerOp_transfers_message rFifo ⟨42, 32, 22⟩ 7 0 (by decide)⟩

/-- Modelled from the spec (section 3): the two fixed sentinel tag values.
The initial request of an op carries INITIAL_REQUEST_TAG, the ultimate
response ULTIMATE_RESPONSE_TAG, and chained server-to-server requests use
the intermediate values above the initial tag. -/
def INITIAL_REQUEST_TAG : Nat := 1

/-- Modelled from the spec (section 3): the sentinel tag of the ultimate
response message of an op. -/
def ULTIMATE_RESPONSE_TAG : Nat := 0

/-- A recorded call to Sender::sendMessage: the message id, destination
address (as the driver's address id), the op, and the expectAck flag. -/
structure SendMessageCall where
  id : MessageId
  destination : Nat
  op : Nat
  expectAck : Bool
  deriving DecidableEq, Repr

/-- Modelled from the spec: Transport::sendRequest for a server-role op with
a non-null inbound message (Transport.cc is not in the tree).  The id
arithmetic of the chained request is fixed by the repository's own test
TransportTest.sendRequest_ServerOp: the sent id is the inbound message's id
with the same transport id and sequence and the tag incremented by one, and
the send expects an acknowledgement (expectAck = true). -/
def sendRequestServer (inboundId : MessageId) (destination : Nat) (op : Nat) :
    SendMessageCall :=
  { id := { inboundId with tag := inboundId.tag + 1 }
    destination := destination
    op := op
    expectAck := true }

/-- The message id that the spec's words prescribe for a server-role
sendRequest: the inbound id with its tag decremented by one. -/
def specServerRequestId (inboundId : MessageId) : MessageId :=
  { inboundId with tag := inboundId.tag - 1 }

/-- C3 counterexample: at the unit test's input (transport 22, sequence 42,
inbound tag 2) the id actually handed to Sender::sendMessage carries tag 3,
not the decremented tag 1 the claim prescribes. -/
theorem sendRequest_server_tag_counterexample :
    (sendRequestServer ⟨22, 42, 2⟩ 22 0).id = ⟨22, 42, 3⟩ ∧
    specServerRequestId ⟨22, 42, 2⟩ = ⟨22, 42, 1⟩ ∧
    (sendRequestServer ⟨22, 42, 2⟩ 22 0).id ≠ specServerRequestId ⟨22, 42, 2⟩ := by
  decide

/-- C3 (amended): for a server-role op with a non-null inbound message,
sendRequest invokes Sender::sendMessage with the inbound id's transport id
and sequence, the tag incremented by one, and expectAck = true. -/
theorem sendRequest_server_increments_tag (inboundId : MessageId)
    (dest op : Nat) :
    (sendRequestServer inboundId dest op).id.transportId = inboundId.transportId ∧
    (sendRequestServer inboundId dest op).id.sequence = inboundId.sequence ∧
    (sendRequestServer inboundId dest op).id.tag = inboundId.tag + 1 ∧
    (sendRequestServer inboundId dest op).destination = dest ∧
    (sendRequestServer inboundId dest op).expectAck = true :=
  ⟨rfl, rfl, rfl, rfl, rfl⟩

/-- The observable OpContext states. -/
inductive OpState where
  | NOT_STARTED
  | IN_PROGRESS
  | COMPLETED
  | FAILED
  deriving DecidableEq, Repr

/-- Modelled from the spec (section 4.5): the fields of a Transport::Op that
processUpdates reads and writes — role, state, the retained and destroy
flags, the inbound message's tag (none for a null inbound message), whether
the inbound message is fully received, and whether the outbound message is
done. -/
structure Op where
  isServerOp : Bool
  state : OpState
  retained : Bool
  destroy : Bool
  inTag : Option Nat
  inReady : Bool
  outIsDone : Bool
  deriving DecidableEq, Repr

/-- Side effects of processUpdates: enqueueing onto pendingServerOps,
hinting a later update, and the packet traffic of a synthesized DONE. -/
inductive OpAction where
  | enqueuePendingServerOp
  | hintUpdate
  | allocPacket
  | sendDonePacket
  | releaseDonePacket
  deriving DecidableEq, Repr

/-- Modelled from the spec: Transport::Op::processUpdates (Transport.cc is
not in the tree; behaviour per spec section 4.5, corroborated by the
Op_processUpdates tests in TransportTest.cc).  Returns the updated op and
the emitted actions. -/
def Op.processUpdates (op : Op) : Op × List OpAction :=
  if op.destroy then (op, [])
  else if op.isServerOp then
    match op.state with
    | OpState.NOT_STARTED =>
        if op.inReady then
          ({ op with state := OpState.IN_PROGRESS },
           [OpAction.enqueuePendingServerOp, OpAction.hintUpdate])
        else (op, [])
    | OpState.IN_PROGRESS =>
        if op.outIsDone then
          if op.inTag = some INITIAL_REQUEST_TAG then
            ({ op with state := OpState.COMPLETED }, [OpAction.hintUpdate])
          else
            ({ op with state := OpState.COMPLETED },
             [OpAction.allocPacket, OpAction.sendDonePacket,
              OpAction.releaseDonePacket, OpAction.hintUpdate])
        else (op, [])
    | OpState.COMPLETED =>
        if op.retained then (op, []) else ({ op with destroy := true }, [])
    | OpState.FAILED =>
        if op.retained then (op, []) else ({ op with destroy := true }, [])
  else
    if op.retained then
      match op.state with
      | OpState.IN_PROGRESS =>
          if op.inReady then
            ({ op with state := OpState.COMPLETED }, [OpAction.hintUpdate])
          else (op, [])
      | _ => (op, [])
    else ({ op with destroy := true }, [])

/-- A server op already marked for destruction while IN_PROGRESS with a done
outbound message. -/
def opDestroyed : Op :=
  { isServerOp := true, state := OpState.IN_PROGRESS, retained := true
    destroy := true, inTag := some 2, inReady := false, outIsDone := true }

/-- C7 counterexample: processUpdates is a no-op when destroy is already set
(spec 4.5 first rule, TransportTest.Op_processUpdates_destroy), so a
server-role op in IN_PROGRESS with a done outbound message is not
transitioned to COMPLETED in that case. -/
theorem processUpdates_destroyed_counterexample :
    opDestroyed.isServerOp = true ∧
    opDestroyed.state = OpState.IN_PROGRESS ∧
    opDestroyed.outIsDone = true ∧
    opDestroyed.processUpdates.1.state = OpState.IN_PROGRESS := by decide

/-- C7 (amended): a server-role op in IN_PROGRESS whose destroy flag is not
set and whose outbound message is done transitions to COMPLETED; with an
inbound tag equal to INITIAL_REQUEST_TAG no packet is emitted, and
otherwise a packet is allocated, a synthesized DONE is sent, and the packet
is released after the send. -/
theorem serverOp_inProgress_done_completes (op : Op) (t : Nat)
    (hs : op.isServerOp = true) (hst : op.state = OpState.IN_PROGRESS)
    (hd : op.outIsDone = true) (hnd : op.destroy = false)
    (ht : op.inTag = some t) :
    op.processUpdates.1.state = OpState.COMPLETED ∧
    (t = INITIAL_REQUEST_TAG →
      op.processUpdates.2 = [OpAction.hintUpdate]) ∧
    (t ≠ INITIAL_REQUEST_TAG →
      op.processUpdates.2 = [OpAction.allocPacket, OpAction.sendDonePacket,
        OpAction.releaseDonePacket, OpAction.hintUpdate]) := by
  by_cases hti : t = INITIAL_REQUEST_TAG
  · simp [Op.processUpdates, hnd, hs, hst, hd, ht, hti]
  · simp [Op.processUpdates, hnd, hs, hst, hd, ht, hti]

/-- A live server op in IN_PROGRESS whose outbound is done and whose inbound
tag is a chained-request tag. -/
def opSrvDone : Op :=
  { isServerOp := true, state := OpState.IN_PROGRESS, retained := true
    destroy := false, inTag := some 2, inReady := false, outIsDone := true }

/-- C7 witness: the amended theorem applied to the concrete chained-request
server op. -/
theorem serverOp_inProgress_done_completes_witness :
    opSrvDone.isServerOp = true ∧ opSrvDone.state = OpState.IN_PROGRESS ∧
    opSrvDone.outIsDone = true ∧ opSrvDone.destroy = false ∧
    opSrvDone.inTag = some 2 ∧
    (opSrvDone.processUpdates.1.state = OpState.COMPLETED ∧
     (2 = INITIAL_REQUEST_TAG →
       opSrvDone.processUpdates.2 = [OpAction.hintUpdate]) ∧
     (2 ≠ INITIAL_REQUEST_TAG →
       opSrvDone.processUpdates.2 = [OpAction.allocPacket,
         OpAction.sendDonePacket, OpAction.releaseDonePacket,
         OpAction.hintUpdate])) :=
  ⟨rfl, rfl, rfl, rfl, rfl,
    serverOp_inProgress_done_completes opSrvDone 2 rfl rfl rfl rfl rfl⟩

/-- C8: a terminal (COMPLETED or FAILED) op that is not retained has destroy
set by its next processUpdates; and a retained op never has destroy set by
processUpdates, regardless of role. -/
theorem terminal_retention_destroy_law (op : Op) :
    ((op.state = OpState.COMPLETED ∨ op.state = OpState.FAILED) →
      op.retained = false → op.processUpdates.1.destroy = true) ∧
    (op.retained = true → op.destroy = false →
      op.processUpdates.1.destroy = false) := by
  obtain ⟨srv, st, ret, des, tag, rdy, done⟩ := op
  constructor
  · rintro (rfl | rfl) rfl <;> cases des <;> cases srv <;>
      simp [Op.processUpdates]
  · rintro rfl rfl
    cases srv <;> cases st <;> cases rdy <;> cases done <;>
      simp [Op.processUpdates] <;> split_ifs <;> simp

/-- An unretained server op that has completed. -/
def opDoneFree : Op :=
  { isServerOp := true, state := OpState.COMPLETED, retained := false
    destroy := false, inTag := some 1, inReady := true, outIsDone := true }

/-- A retained client op that has completed. -/
def opDoneHeld : Op :=
  { isServerOp := false, state := OpState.COMPLETED, retained := true
    destroy := false, inTag := none, inReady := true, outIsDone := true }

/-- C8 witness: both directions of the law applied at concrete terminal
ops. -/
theorem terminal_retention_destroy_law_witness :
    (opDoneFree.state = OpState.COMPLETED ∨ opDoneFree.state = OpState.FAILED) ∧
    opDoneFree.retained = false ∧
    opDoneFree.processUpdates.1.destroy = true ∧
    opDoneHeld.retained = true ∧ opDoneHeld.destroy = false ∧
    opDoneHeld.processUpdates.1.destroy = false :=
  ⟨Or.inl rfl, rfl,
    (terminal_retention_destroy_law opDoneFree).1 (Or.inl rfl) rfl,
    rfl, rfl,
    (terminal_retention_destroy_law opDoneHeld).2 rfl rfl⟩

/-- The message id used throughout the repository's Receiver tests. -/
def idW : MessageId := ⟨42, 32, 22⟩

/-- The driver of the Receiver tests: max payload 1028 bytes. -/
def drvW : Driver := ⟨1028⟩

/-- DATA packet with slot index 0 of a 1420 byte message. -/
def pktW0 : Packet :=
  { header := { messageId := idW, index := 0, totalLength := 1420 }
    address := "remote-location" }

/-- DATA packet with slot index 1 of a 1420 byte message. -/
def pktW1 : Packet :=
  { header := { messageId := idW, index := 1, totalLength := 1420 }
    address := "remote-location" }

/-- Message buffer holding only slot 1 of the 1420 byte message. -/
def bufW1 : Message :=
  { PACKET_DATA_LENGTH := 1000, messageLength := 1420, occupied := [1] }

/-- Inbound message that has received slot 1 and is not yet complete. -/
def msgW1 : InboundMessage :=
  { id := idW, message := some bufW1, source := some "remote-location"
    fullMessageReceived := false }

/-- Receiver with the id registered to op 7 whose message has slot 1. -/
def rW1 : Receiver :=
  { registeredOps := [(idW, 7)], opInMessage := [(7, 0)]
    unregisteredMessages := [], receivedMessages := []
    pool := [(0, msgW1)], nextPtr := 1 }

/-- The fully received inbound message with both slots. -/
def msgW2 : InboundMessage :=
  { id := idW
    message := some { PACKET_DATA_LENGTH := 1000, messageLength := 1420
                      occupied := [0, 1] }
    source := some "remote-location", fullMessageReceived := true }

/-- The receiver rW1 after the completing packet. -/
def rW2 : Receiver :=
  { registeredOps := [(idW, 7)], opInMessage := [(7, 0)]
    unregisteredMessages := [], receivedMessages := []
    pool := [(0, msgW2)], nextPtr := 1 }

/-- C1 witness: the completing packet on the registered message returns op 7,
and the characterization evaluates accordingly. -/
theorem handleDataPacket_op_iff_witness :
    rW1.handleDataPacket drvW pktW0 =
      some (rW2, [Event.packetReceived idW "remote-location" 1420 2000], some 7) ∧
    some 7 = if rW1.isFull pktW0.header.messageId = false ∧
                rW2.isFull pktW0.header.messageId = true
             then alookup rW1.registeredOps pktW0.header.messageId
             else none :=
  ⟨by decide,
    handleDataPacket_op_iff rW1 drvW pktW0 rW2
      [Event.packetReceived idW "remote-location" 1420 2000] (some 7) (by decide)⟩

/-- Receiver rW1 already fully received. -/
def rWF : Receiver :=
  { registeredOps := [(idW, 7)], opInMessage := [(7, 0)]
    unregisteredMessages := [], receivedMessages := []
    pool := [(0, msgW2)], nextPtr := 1 }

/-- C4 witness: a further packet for the completed message leaves the whole
state unchanged, releases the packet and returns nullptr. -/
theorem fullMessageReceived_sticky_witness :
    rWF.messageFor pktW0.header.messageId = some 0 ∧
    alookup rWF.pool 0 = some msgW2 ∧
    msgW2.id = pktW0.header.messageId ∧
    msgW2.fullMessageReceived = true ∧
    rWF.handleDataPacket drvW pktW0 = some (rWF, [Event.releasePacket], none) :=
  ⟨by decide, by decide, by decide, rfl,
    fullMessageReceived_sticky rWF drvW pktW0 0 msgW2
      { PACKET_DATA_LENGTH := 1000, messageLength := 1420, occupied := [0, 1] }
      (by decide) (by decide) (by decide) rfl rfl⟩

/-- C5 witness: replaying slot 1 on the incomplete message releases the
packet, does not notify the Scheduler and changes nothing. -/
theorem duplicate_packet_dropped_witness :
    pktW1.header.index ∈ bufW1.occupied ∧
    rW1.handleDataPacket drvW pktW1 = some (rW1, [Event.releasePacket], none) :=
  ⟨by decide,
    duplicate_packet_dropped rW1 drvW pktW1 0 msgW1 bufW1 "remote-location"
      (by decide) (by decide) (by decide) rfl rfl rfl rfl (by decide) (by decide)⟩

/-- C6 witness: adding slot 0 to the message with slot 1 informs the
Scheduler with the over-counted 2000 bytes and completes the message. -/
theorem packet_added_informs_scheduler_witness :
    pktW0.header.index ∉ bufW1.occupied ∧
    rW1.handleDataPacket drvW pktW0 =
      some ({ rW1 with pool := (aupdate rW1.pool 0
                { msgW1 with
                    message := some { bufW1 with
                      occupied := pktW0.header.index :: bufW1.occupied }
                    fullMessageReceived :=
                      decide (bufW1.messageLength ≤
                        bufW1.PACKET_DATA_LENGTH * (bufW1.occupied.length + 1)) }) },
            [Event.packetReceived pktW0.header.messageId "remote-location"
              bufW1.messageLength
              (bufW1.PACKET_DATA_LENGTH * (bufW1.occupied.length + 1))],
            if bufW1.messageLength ≤
                 bufW1.PACKET_DATA_LENGTH * (bufW1.occupied.length + 1)
            then alookup rW1.registeredOps pktW0.header.messageId else none) :=
  ⟨by decide,
    packet_added_informs_scheduler rW1 drvW pktW0 0 msgW1 bufW1 "remote-location"
      (by decide) (by decide) (by decide) rfl rfl rfl rfl (by decide) (by decide)⟩

/-- Receiver with an existing unregistered message for the id, still on the
FIFO, holding slot 1. -/
def rWU : Receiver :=
  { registeredOps := [], opInMessage := []
    unregisteredMessages := [(idW, 0)], receivedMessages := [0]
    pool := [(0, msgW1)], nextPtr := 1 }

/-- The receiver rWU after the completing packet. -/
def rWU2 : Receiver :=
  { registeredOps := [], opInMessage := []
    unregisteredMessages := [(idW, 0)], receivedMessages := [0]
    pool := [(0, msgW2)], nextPtr := 1 }

/-- C9 witness: a packet for an id that already has an unregistered message
does not enqueue onto the FIFO and constructs no new pool object. -/
theorem message_enqueued_once_witness :
    rWU.handleDataPacket drvW pktW0 =
      some (rWU2, [Event.packetReceived idW "remote-location" 1420 2000], none) ∧
    ((alookup rWU.registeredOps pktW0.header.messageId).isSome ∨
      (alookup rWU.unregisteredMessages pktW0.header.messageId).isSome) ∧
    (rWU2.receivedMessages = rWU.receivedMessages ∧
     rWU2.pool.map Prod.fst = rWU.pool.map Prod.fst) :=
  ⟨by decide, by decide,
    (message_enqueued_once rWU drvW pktW0 rWU2
      [Event.packetReceived idW "remote-location" 1420 2000] none (by decide)).1
      (by decide)⟩

/-- C10 witness: on the consistent registered state the assertions cannot
fire and handleDataPacket returns a result. -/
theorem handleDataPacket_asserts_hold_witness :
    (rW1.handleDataPacket drvW pktW0).isSome = true :=
  handleDataPacket_asserts_hold rW1 drvW pktW0
    (by
      intro o ho
      have h7 : alookup rW1.registeredOps pktW0.header.messageId = some 7 := by
        decide
      rw [h7] at ho
      injection ho with ho
      subst ho
      decide)
    (by
      intro p hp
      have h0 : rW1.messageFor pktW0.header.messageId = some 0 := by decide
      rw [h0] at hp
      injection hp with hp
      subst hp
      exact ⟨msgW1, by decide, by decide,
        Or.inr (Or.inr ⟨bufW1, "remote-location", rfl, rfl, by decide, by decide⟩)⟩)

end Homa
